import Mathlib

/-!
A verification development for the transformation front-ends in `jax/api.py`:
the data model (dtypes, array leaves, nested argument containers) and the
front-end argument-validation and dispatch logic are embedded shallowly, and
the behavioural claims about them are settled as theorems.

Helper layers of the repository that are not part of the sources here
(`tree_util`, `api_util`, `core`, the `interpreters/*` engines, `xla`) are
either taken as explicit function parameters of the embedded front-ends or
modelled from the spec, with a doc comment saying so.
-/

namespace Jax

/-- Array element dtypes as used by `api.py`: a fragment of the numpy/jax
dtype kinds (floating, complex-floating, integer, boolean) plus the sentinel
no-tangent dtype `float0` from `jax._src.dtypes`. -/
inductive DType where
  | float32
  | float64
  | complex64
  | complex128
  | int32
  | int64
  | boolDT
  | float0
deriving DecidableEq, Repr

/-- `dtypes.issubdtype(d, np.floating)`. -/
def DType.isFloating : DType → Bool
  | .float32 | .float64 => true
  | _ => false

/-- `dtypes.issubdtype(d, np.complexfloating)`. -/
def DType.isComplexFloating : DType → Bool
  | .complex64 | .complex128 => true
  | _ => false

/-- Modelled from the spec: `core.primal_dtype_to_tangent_dtype` is not among
the sources. Per spec 4.4/4.6 integer inputs produce a sentinel "no-tangent"
dtype, and the error message in `_jvp` (api.py) records that "in case of
int/bool primal dtype the tangent dtype must be float0"; inexact (floating or
complex-floating) dtypes are their own tangent dtype. -/
def primal_dtype_to_tangent_dtype (d : DType) : DType :=
  if d.isFloating || d.isComplexFloating then d else .float0

/-- A concrete array leaf: shape, dtype and flattened element data
(element values modelled as rationals). -/
structure JaxArray where
  shape : List Nat
  dtype : DType
  data : List Rat
deriving DecidableEq, Repr

/-- `np.ones(shape, dtype)`. -/
def onesArray (shape : List Nat) (d : DType) : JaxArray :=
  ⟨shape, d, List.replicate shape.prod 1⟩

/-- `np.zeros(shape, dtype)`. -/
def zerosArray (shape : List Nat) (d : DType) : JaxArray :=
  ⟨shape, d, List.replicate shape.prod 0⟩

/-- Nested argument containers (pytrees) with leaves of type `α`: tuples and
lists of further containers. (`tree_util` is outside the sources; the
container forms `api.py` relies on are modelled directly. Tuples and lists
are distinct container types, hence distinct structure tokens.) -/
inductive PyTree (α : Type) where
  | leaf (x : α)
  | tup (children : List (PyTree α))
  | lst (children : List (PyTree α))

mutual

def PyTree.decEq {α : Type} [DecidableEq α] : (a b : PyTree α) → Decidable (a = b)
  | .leaf x, .leaf y =>
    if h : x = y then isTrue (by rw [h]) else isFalse (fun hh => by cases hh; exact h rfl)
  | .leaf _, .tup _ => isFalse (fun hh => by cases hh)
  | .leaf _, .lst _ => isFalse (fun hh => by cases hh)
  | .tup _, .leaf _ => isFalse (fun hh => by cases hh)
  | .tup a, .tup b =>
    match PyTree.decEqList a b with
    | isTrue h => isTrue (by rw [h])
    | isFalse h => isFalse (fun hh => by cases hh; exact h rfl)
  | .tup _, .lst _ => isFalse (fun hh => by cases hh)
  | .lst _, .leaf _ => isFalse (fun hh => by cases hh)
  | .lst _, .tup _ => isFalse (fun hh => by cases hh)
  | .lst a, .lst b =>
    match PyTree.decEqList a b with
    | isTrue h => isTrue (by rw [h])
    | isFalse h => isFalse (fun hh => by cases hh; exact h rfl)

def PyTree.decEqList {α : Type} [DecidableEq α] : (a b : List (PyTree α)) → Decidable (a = b)
  | [], [] => isTrue rfl
  | [], _ :: _ => isFalse (fun hh => by cases hh)
  | _ :: _, [] => isFalse (fun hh => by cases hh)
  | x :: xs, y :: ys =>
    match PyTree.decEq x y, PyTree.decEqList xs ys with
    | isTrue h1, isTrue h2 => isTrue (by rw [h1, h2])
    | isFalse h1, _ => isFalse (fun hh => by cases hh; exact h1 rfl)
    | isTrue _, isFalse h2 => isFalse (fun hh => by cases hh; exact h2 rfl)

end

instance {α : Type} [DecidableEq α] : DecidableEq (PyTree α) := PyTree.decEq

/-- A structure token (`treedef`): a pytree with trivial leaves. -/
abbrev TreeDef := PyTree Unit

instance {ε α : Type} [DecidableEq ε] [DecidableEq α] : DecidableEq (Except ε α) :=
  fun x y =>
    match x, y with
    | .ok a, .ok b =>
      if h : a = b then isTrue (by rw [h])
      else isFalse (fun hh => by cases hh; exact h rfl)
    | .error e, .error e2 =>
      if h : e = e2 then isTrue (by rw [h])
      else isFalse (fun hh => by cases hh; exact h rfl)
    | .ok _, .error _ => isFalse (fun hh => by cases hh)
    | .error _, .ok _ => isFalse (fun hh => by cases hh)

mutual

/-- The flat ordered leaf sequence of `tree_flatten` (depth-first,
left-to-right). -/
def treeLeaves {α : Type} : PyTree α → List α
  | .leaf x => [x]
  | .tup ts => treeLeavesList ts
  | .lst ts => treeLeavesList ts

def treeLeavesList {α : Type} : List (PyTree α) → List α
  | [] => []
  | t :: ts => treeLeaves t ++ treeLeavesList ts

end

mutual

/-- The structure token returned by `tree_flatten`. -/
def treeDefOf {α : Type} : PyTree α → TreeDef
  | .leaf _ => .leaf ()
  | .tup ts => .tup (treeDefOfList ts)
  | .lst ts => .lst (treeDefOfList ts)

def treeDefOfList {α : Type} : List (PyTree α) → List TreeDef
  | [] => []
  | t :: ts => treeDefOf t :: treeDefOfList ts

end

mutual

def unflattenAux {α : Type} : TreeDef → List α → Option (PyTree α × List α)
  | .leaf _, [] => none
  | .leaf _, x :: rest => some (.leaf x, rest)
  | .tup ts, xs =>
    match unflattenListAux ts xs with
    | none => none
    | some (cs, rest) => some (.tup cs, rest)
  | .lst ts, xs =>
    match unflattenListAux ts xs with
    | none => none
    | some (cs, rest) => some (.lst cs, rest)

def unflattenListAux {α : Type} : List TreeDef → List α → Option (List (PyTree α) × List α)
  | [], xs => some ([], xs)
  | t :: ts, xs =>
    match unflattenAux t xs with
    | none => none
    | some (c, rest) =>
      match unflattenListAux ts rest with
      | none => none
      | some (cs, rest2) => some (c :: cs, rest2)

end

/-- `tree_unflatten(treedef, leaves)`: rebuild the container from a structure
token and a flat leaf list; `none` models the structure-mismatch failure when
the leaf count does not fit the token. -/
def tree_unflatten {α : Type} (td : TreeDef) (leaves : List α) : Option (PyTree α) :=
  match unflattenAux td leaves with
  | some (t, []) => some t
  | _ => none

mutual

theorem unflattenAux_treeDef {α : Type} :
    ∀ (td : TreeDef) (xs : List α) (t : PyTree α) (rest : List α),
      unflattenAux td xs = some (t, rest) → treeDefOf t = td
  | .leaf _, [], _, _, h => by simp [unflattenAux] at h
  | .leaf _, x :: l, t, rest, h => by
    simp [unflattenAux] at h
    rw [← h.1]; rfl
  | .tup ts, xs, t, rest, h => by
    unfold unflattenAux at h
    cases hl : unflattenListAux (α := α) ts xs with
    | none => rw [hl] at h; simp at h
    | some p =>
      obtain ⟨cs, r⟩ := p
      rw [hl] at h
      simp at h
      rw [← h.1, treeDefOf, unflattenListAux_treeDef ts xs cs r hl]
  | .lst ts, xs, t, rest, h => by
    unfold unflattenAux at h
    cases hl : unflattenListAux (α := α) ts xs with
    | none => rw [hl] at h; simp at h
    | some p =>
      obtain ⟨cs, r⟩ := p
      rw [hl] at h
      simp at h
      rw [← h.1, treeDefOf, unflattenListAux_treeDef ts xs cs r hl]

theorem unflattenListAux_treeDef {α : Type} :
    ∀ (tds : List TreeDef) (xs : List α) (cs : List (PyTree α)) (rest : List α),
      unflattenListAux tds xs = some (cs, rest) → treeDefOfList cs = tds
  | [], xs, cs, rest, h => by
    simp [unflattenListAux] at h
    rw [h.1]; rfl
  | t :: ts, xs, cs, rest, h => by
    unfold unflattenListAux at h
    cases h1 : unflattenAux (α := α) t xs with
    | none => rw [h1] at h; simp at h
    | some p =>
      obtain ⟨c, r⟩ := p
      rw [h1] at h
      dsimp only at h
      cases h2 : unflattenListAux (α := α) ts r with
      | none => rw [h2] at h; simp at h
      | some q =>
        obtain ⟨cs2, r2⟩ := q
        rw [h2] at h
        simp at h
        have e1 := unflattenAux_treeDef t xs c r h1
        have e2 := unflattenListAux_treeDef ts r cs2 r2 h2
        rw [← h.1, treeDefOfList, e1, e2]

end

/-- On success, `tree_unflatten` returns a container with exactly the
requested structure token. -/
theorem tree_unflatten_treeDef {α : Type} (td : TreeDef) (leaves : List α)
    (t : PyTree α) (h : tree_unflatten td leaves = some t) : treeDefOf t = td := by
  unfold tree_unflatten at h
  cases h1 : unflattenAux (α := α) td leaves with
  | none => rw [h1] at h; simp at h
  | some p =>
    obtain ⟨t2, rest⟩ := p
    rw [h1] at h
    cases rest with
    | nil => simp at h; rw [← h]; exact unflattenAux_treeDef td leaves t2 [] h1
    | cons a l => simp at h

/-- The errors raised by the front-ends in `api.py`. Python raises
`TypeError`/`ValueError` with formatted messages; each constructor stands for
one raise site and carries the data interpolated into that message. -/
inductive JaxError where
  | notCallable
  | generatorFunction
  | staticDonateOutOfRange (static donate : List Nat) (nargs : Nat)
  | deviceAndBackend
  | notScalarOutput (shape : List Nat)
  | inputDtypeHolomorphic (name : String) (d : DType)
  | inputDtypeNotInexact (name : String) (d : DType)
  | inputDtypeNotFloating (name : String) (d : DType)
  | outputDtypeHolomorphic (name : String) (d : DType)
  | outputDtypeNotFloating (name : String) (d : DType)
  | jvpNotTupleOrList
  | treeMismatch (got expected : TreeDef)
  | tangentDtypeMismatch (primal tangent : DType)
  | tangentShapeMismatch (primal tangent : List Nat)
  | cotangentDtypeMismatch (ct expected : DType)
  | lengthMismatch
  | structureMismatch
  | rankError (name : String) (arg : Nat) (rank : Nat) (axis : Int)
  | noMappedAxis (name : String)
  | inconsistentAxisSize (name : String) (conflicts : List (Nat × List Nat))
deriving DecidableEq

/-- A Python value handed to a transformation front-end as its `fun` argument:
either not callable at all, or a callable whose behaviour is `f` and which
may or may not be a generator function. -/
inductive FunArg (τ : Type) where
  | notCallable
  | callable (f : τ) (isGeneratorFn : Bool)

/-- api.py `_check_callable`: a TypeError for non-callable values and for
generator functions; otherwise the callable is used. -/
def _check_callable {τ : Type} : FunArg τ → Except JaxError τ
  | .notCallable => .error .notCallable
  | .callable _ true => .error .generatorFunction
  | .callable f false => .ok f

/-- api.py `_check_scalar`: "Gradient only defined for scalar-output
functions"; a non-empty output shape is a TypeError. -/
def _check_scalar (x : JaxArray) : Except JaxError Unit :=
  if x.shape = [] then .ok () else .error (.notScalarOutput x.shape)

/-- api.py `_check_input_dtype_revderiv` (specialised to `grad` as
`_check_input_dtype_grad`, and to `jacrev`): holomorphic requires a complex
input dtype; otherwise, unless `allow_int`, the input dtype must be floating
or complex-floating. -/
def _check_input_dtype_revderiv (name : String) (holomorphic allow_int : Bool)
    (x : JaxArray) : Except JaxError Unit :=
  if holomorphic then
    if x.dtype.isComplexFloating then .ok ()
    else .error (.inputDtypeHolomorphic name x.dtype)
  else if !allow_int && !(x.dtype.isFloating || x.dtype.isComplexFloating) then
    .error (.inputDtypeNotInexact name x.dtype)
  else .ok ()

/-- api.py `_check_output_dtype_revderiv`: holomorphic requires a complex
output dtype; otherwise the output dtype must be floating. -/
def _check_output_dtype_revderiv (name : String) (holomorphic : Bool)
    (x : JaxArray) : Except JaxError Unit :=
  if holomorphic then
    if x.dtype.isComplexFloating then .ok ()
    else .error (.outputDtypeHolomorphic name x.dtype)
  else if !x.dtype.isFloating then .error (.outputDtypeNotFloating name x.dtype)
  else .ok ()

/-- api.py `_check_input_dtype_jacfwd`: holomorphic requires a complex (and
not floating) input dtype; otherwise the input dtype must be floating. -/
def _check_input_dtype_jacfwd (holomorphic : Bool) (x : JaxArray) :
    Except JaxError Unit :=
  if holomorphic then
    if x.dtype.isComplexFloating && !x.dtype.isFloating then .ok ()
    else .error (.inputDtypeHolomorphic "jacfwd" x.dtype)
  else if !x.dtype.isFloating then .error (.inputDtypeNotFloating "jacfwd" x.dtype)
  else .ok ()

/-- Modelled from the spec: the primitive numeric library and the reverse-mode
engine (`interpreters/ad`, reached through `_vjp`) are not among the sources.
The three concrete user functions the claims evaluate `grad` on are modelled
as primitives: the identity, the scalar-reducing sum, and a constant scalar
1.0 (float) function. -/
inductive Prim where
  | idPrim
  | sumPrim
  | onePrim
deriving DecidableEq, Repr

/-- Modelled from the spec: forward evaluation of the three primitives. The
sum of an array of shape `s` has empty shape and the same dtype; the constant
function returns a float32 scalar. -/
def applyPrim : Prim → JaxArray → JaxArray
  | .idPrim, x => x
  | .sumPrim, x => ⟨[], x.dtype, [x.data.sum]⟩
  | .onePrim, _ => ⟨[], .float32, [1]⟩

/-- Modelled from the spec: the per-primitive cotangent (transpose) rules of
the reverse pass (spec 4.4). The pullback of the identity passes the
cotangent through; the pullback of sum broadcasts the scalar cotangent to the
input shape (spec 8: differentiating a sum yields all-ones); the pullback of
a constant is zero, carried at the input's tangent dtype (spec 4.4/4.6: an
integer input's cotangent has the sentinel no-tangent dtype). -/
def vjpPrim : Prim → JaxArray → JaxArray → JaxArray
  | .idPrim, _, ct => ct
  | .sumPrim, x, ct => ⟨x.shape, ct.dtype, List.replicate x.shape.prod (ct.data.headD 0)⟩
  | .onePrim, x, _ => ⟨x.shape, primal_dtype_to_tangent_dtype x.dtype,
                       List.replicate x.shape.prod 0⟩

/-- api.py `value_and_grad_f` (the closure built by `value_and_grad`), for a
single positional argument (`argnums = 0`, the default) and `has_aux=False`.
The order of operations mirrors the source: input-dtype check, reverse-mode
vjp of the user function, scalar-output check, output-dtype check, then the
pullback applied to `np.ones((), dtype)`. -/
def value_and_grad_f (holomorphic allow_int : Bool) (p : Prim) (x : JaxArray) :
    Except JaxError (JaxArray × JaxArray) := do
  _check_input_dtype_revderiv "grad" holomorphic allow_int x
  let ans := applyPrim p x
  _check_scalar ans
  let dtype := ans.dtype
  _check_output_dtype_revderiv "grad" holomorphic ans
  let g := vjpPrim p x (onesArray [] dtype)
  return (ans, g)

/-- api.py `grad_f` (the closure built by `grad`): evaluate
`value_and_grad_f` and return only the gradient. -/
def grad_f (holomorphic allow_int : Bool) (p : Prim) (x : JaxArray) :
    Except JaxError JaxArray :=
  (value_and_grad_f holomorphic allow_int p x).map Prod.snd

/-- api.py `value_and_grad`: wrap-time `_check_callable`, then the
`value_and_grad_f` closure over the user function. -/
def value_and_grad (fun_ : FunArg Prim) (holomorphic allow_int : Bool) :
    Except JaxError (JaxArray → Except JaxError (JaxArray × JaxArray)) :=
  (_check_callable fun_).map (fun p => value_and_grad_f holomorphic allow_int p)

/-- api.py `grad`: built on `value_and_grad`; the returned `grad_f` closure
drops the value and keeps the gradient. -/
def grad (fun_ : FunArg Prim) (holomorphic allow_int : Bool) :
    Except JaxError (JaxArray → Except JaxError JaxArray) :=
  (value_and_grad fun_ holomorphic allow_int).map
    (fun vg => fun x => (vg x).map Prod.snd)

/-- C1: `grad` (under default settings) applied to the identity on an array of
non-scalar shape fails with the not-scalar-output TypeError naming that
shape; applied to the scalar-reducing sum of a floating-point array it
succeeds and returns the all-ones array of the input's shape. -/
theorem C1_grad_scalar_output_enforcement (x : JaxArray) :
    (x.dtype.isFloating = true → x.shape ≠ [] →
      grad_f false false .idPrim x = .error (.notScalarOutput x.shape)) ∧
    (x.dtype.isFloating = true →
      grad_f false false .sumPrim x = .ok (onesArray x.shape x.dtype)) := by
  constructor
  · intro hf hs
    have h1 : _check_input_dtype_revderiv "grad" false false x = .ok () := by
      simp [_check_input_dtype_revderiv, hf]
    have h2 : _check_scalar (applyPrim .idPrim x)
        = .error (.notScalarOutput x.shape) := by
      simp [applyPrim, _check_scalar, hs]
    simp only [grad_f, value_and_grad_f]
    rw [h1, h2]
    rfl
  · intro hf
    have h1 : _check_input_dtype_revderiv "grad" false false x = .ok () := by
      simp [_check_input_dtype_revderiv, hf]
    have h2 : _check_scalar (applyPrim .sumPrim x) = .ok () := by
      simp [applyPrim, _check_scalar]
    have h3 : _check_output_dtype_revderiv "grad" false (applyPrim .sumPrim x)
        = .ok () := by
      simp [applyPrim, _check_output_dtype_revderiv, hf]
    simp only [grad_f, value_and_grad_f]
    rw [h1, h2, h3]
    rfl

theorem C1_grad_scalar_output_enforcement_witness :
    grad_f false false .idPrim ⟨[3], .float32, [5, 7, 9]⟩
        = .error (.notScalarOutput [3]) ∧
    grad_f false false .sumPrim ⟨[3], .float32, [5, 7, 9]⟩
        = .ok (onesArray [3] .float32) :=
  ⟨(C1_grad_scalar_output_enforcement ⟨[3], .float32, [5, 7, 9]⟩).1
      (by decide) (by decide),
   (C1_grad_scalar_output_enforcement ⟨[3], .float32, [5, 7, 9]⟩).2
      (by decide)⟩

/-- C7: with the default settings (`holomorphic=False`, `allow_int=False`)
`grad` rejects any input whose dtype is neither floating nor
complex-floating with a TypeError, before any differentiation (the error
does not depend on the function); with `allow_int=True` an int32 input is
admitted and its gradient is carried at the sentinel no-tangent dtype
float0. -/
theorem C7_grad_input_dtype_gate (p : Prim) (x : JaxArray) :
    (x.dtype.isFloating = false → x.dtype.isComplexFloating = false →
      grad_f false false p x = .error (.inputDtypeNotInexact "grad" x.dtype)) ∧
    (x.dtype = .int32 →
      grad_f false true .onePrim x = .ok (zerosArray x.shape .float0) ∧
      (zerosArray x.shape .float0).dtype = .float0) := by
  constructor
  · intro h1 h2
    have hc : _check_input_dtype_revderiv "grad" false false x
        = .error (.inputDtypeNotInexact "grad" x.dtype) := by
      simp [_check_input_dtype_revderiv, h1, h2]
    simp only [grad_f, value_and_grad_f]
    rw [hc]
    rfl
  · intro h
    refine ⟨?_, rfl⟩
    have h1 : _check_input_dtype_revderiv "grad" false true x = .ok () := by
      simp [_check_input_dtype_revderiv]
    have h2 : _check_scalar (applyPrim .onePrim x) = .ok () := by
      simp [applyPrim, _check_scalar]
    have h3 : _check_output_dtype_revderiv "grad" false (applyPrim .onePrim x)
        = .ok () := by
      simp [applyPrim, _check_output_dtype_revderiv, DType.isFloating]
    simp only [grad_f, value_and_grad_f]
    rw [h1, h2, h3]
    simp [vjpPrim, applyPrim, zerosArray, primal_dtype_to_tangent_dtype, h,
          DType.isFloating, DType.isComplexFloating, Except.map]
    rfl

theorem C7_grad_input_dtype_gate_witness :
    grad_f false false .idPrim ⟨[], .boolDT, [0]⟩
        = .error (.inputDtypeNotInexact "grad" .boolDT) ∧
    grad_f false true .onePrim ⟨[2], .int32, [3, 4]⟩
        = .ok (zerosArray [2] .float0) :=
  ⟨(C7_grad_input_dtype_gate .idPrim ⟨[], .boolDT, [0]⟩).1 (by decide) (by decide),
   ((C7_grad_input_dtype_gate .idPrim ⟨[2], .int32, [3, 4]⟩).2 (by decide)).1⟩

/-- Python indexing `shape[axis]` with negative-axis wraparound, as performed
by `_get_axis_size` inside `_mapped_axis_size`; `none` models the
IndexError/TypeError path (axis out of range for the rank). -/
def pyGetAxisSize (shape : List Nat) (axis : Int) : Option Nat :=
  let n : Int := shape.length
  let j := if axis < 0 then axis + n else axis
  if 0 ≤ j ∧ j < n then shape.get? j.toNat else none

/-- api.py `_mapped_axis_size`, collection stage: the mapped-axis sizes
`{_get_axis_size(name, i, np.shape(x), d) ... if d is not None}` gathered
left to right together with their argument indices, failing with the
rank ValueError where `_get_axis_size` does. -/
def collectMappedSizes (name : String) :
    Nat → List JaxArray → List (Option Int) → Except JaxError (List (Nat × Nat))
  | _, [], _ => .ok []
  | _, _ :: _, [] => .ok []
  | i, v :: vs, d :: ds =>
    match d with
    | none => collectMappedSizes name (i + 1) vs ds
    | some a =>
      match pyGetAxisSize v.shape a with
      | none => .error (.rankError name i v.shape.length a)
      | some s => (collectMappedSizes name (i + 1) vs ds).map (fun l => (i, s) :: l)

/-- The grouping built in `_mapped_axis_size`'s inconsistency branch
(`sizes = collections.defaultdict(list); sizes[x.shape[d]].append(i)`):
per distinct size, in order of first appearance, the indices of the
arguments mapped at that size. -/
def sizeGroups (pairs : List (Nat × Nat)) : List (Nat × List Nat) :=
  ((pairs.map Prod.snd).dedup).map
    (fun s => (s, (pairs.filter (fun r => r.2 == s)).map Prod.fst))

/-- api.py `_mapped_axis_size`: exactly one distinct mapped-axis size is
returned; no mapped leaf raises the "must have at least one non-None value
in in_axes" ValueError; two or more distinct sizes raise the
inconsistent-sizes ValueError carrying the per-size argument groups (the
branch of the error construction taken when every argument is an array
leaf). -/
def _mapped_axis_size (name : String) (vals : List JaxArray)
    (dims : List (Option Int)) : Except JaxError Nat := do
  let pairs ← collectMappedSizes name 0 vals dims
  match (pairs.map Prod.snd).dedup with
  | [s] => .ok s
  | [] => .error (.noMappedAxis name)
  | _ => .error (.inconsistentAxisSize name (sizeGroups pairs))

/-- api.py `batched_fun` (the closure built by `vmap`) up to its axis-size
computation, over already-flattened arguments and per-leaf axis specs; the
batching engine (`interpreters/batching.batch`) the call then enters is
external to the sources and is a parameter. -/
def batched_fun {τ : Type} (batchEngine : Nat → τ → List JaxArray → List JaxArray)
    (f : τ) (args_flat : List JaxArray) (in_axes_flat : List (Option Int)) :
    Except JaxError (List JaxArray) := do
  let axis_size ← _mapped_axis_size "vmap" args_flat in_axes_flat
  return batchEngine axis_size f args_flat

/-- api.py `vmap`: wrap-time `_check_callable`, then the `batched_fun`
closure over the user function. -/
def vmap {τ : Type} (batchEngine : Nat → τ → List JaxArray → List JaxArray)
    (fun_ : FunArg τ) (in_axes : List (Option Int)) :
    Except JaxError (List JaxArray → Except JaxError (List JaxArray)) :=
  (_check_callable fun_).map
    (fun f => fun args => batched_fun batchEngine f args in_axes)

theorem mapped_axis_size_of_collect (name : String) (vals : List JaxArray)
    (dims : List (Option Int)) (pairs : List (Nat × Nat))
    (hc : collectMappedSizes name 0 vals dims = .ok pairs) :
    _mapped_axis_size name vals dims =
      match (pairs.map Prod.snd).dedup with
      | [s] => .ok s
      | [] => .error (.noMappedAxis name)
      | _ => .error (.inconsistentAxisSize name (sizeGroups pairs)) := by
  unfold _mapped_axis_size
  rw [hc]
  rfl

/-- C2: for a call to a vmap-transformed function whose mapped-axis sizes are
collectable (each mapped axis within its argument's rank): if more than one
distinct size occurs, the call fails — whatever the batching engine — with
the inconsistent-axis-size error, whose payload names every mapped argument
index grouped by its size; if no leaf is mapped, the call fails with the
at-least-one-non-None error. -/
theorem C2_vmap_axis_size_consistency {τ : Type}
    (vals : List JaxArray) (dims : List (Option Int)) (pairs : List (Nat × Nat))
    (hc : collectMappedSizes "vmap" 0 vals dims = .ok pairs) :
    (2 ≤ (pairs.map Prod.snd).dedup.length →
      (∀ (engine : Nat → τ → List JaxArray → List JaxArray) (f : τ),
        batched_fun engine f vals dims
          = .error (.inconsistentAxisSize "vmap" (sizeGroups pairs))) ∧
      ∀ q ∈ pairs, ∃ g ∈ sizeGroups pairs, q.1 ∈ g.2) ∧
    (pairs = [] →
      ∀ (engine : Nat → τ → List JaxArray → List JaxArray) (f : τ),
        batched_fun engine f vals dims = .error (.noMappedAxis "vmap")) := by
  constructor
  · intro h2
    constructor
    · intro engine f
      unfold batched_fun
      rw [mapped_axis_size_of_collect "vmap" vals dims pairs hc]
      cases hdd : (pairs.map Prod.snd).dedup with
      | nil => rw [hdd] at h2; simp at h2
      | cons a rest =>
        cases rest with
        | nil => rw [hdd] at h2; simp at h2
        | cons b l => rfl
    · intro q hq
      have h1 : q.2 ∈ pairs.map Prod.snd := List.mem_map_of_mem Prod.snd hq
      have hd : q.2 ∈ (pairs.map Prod.snd).dedup := List.mem_dedup.mpr h1
      refine ⟨(q.2, (pairs.filter (fun r => r.2 == q.2)).map Prod.fst), ?_, ?_⟩
      · exact List.mem_map_of_mem _ hd
      · refine List.mem_map_of_mem Prod.fst ?_
        refine List.mem_filter.mpr ⟨hq, ?_⟩
        simp
  · intro hp engine f
    unfold batched_fun
    rw [mapped_axis_size_of_collect "vmap" vals dims pairs hc, hp]
    rfl

theorem C2_vmap_axis_size_consistency_witness :
    batched_fun (fun _ _ a => a) ()
        [⟨[4], .float32, List.replicate 4 1⟩, ⟨[5], .float32, List.replicate 5 1⟩]
        [some 0, some 0]
      = .error (.inconsistentAxisSize "vmap" [(4, [0]), (5, [1])]) ∧
    batched_fun (fun _ _ a => a) ()
        [⟨[4], .float32, List.replicate 4 1⟩] [none]
      = .error (.noMappedAxis "vmap") := by
  constructor
  · have h := ((C2_vmap_axis_size_consistency (τ := Unit)
      [⟨[4], .float32, List.replicate 4 1⟩, ⟨[5], .float32, List.replicate 5 1⟩]
      [some 0, some 0] [(0, 4), (1, 5)] (by decide)).1 (by decide)).1
      (fun _ _ a => a) ()
    rw [h]
    decide
  · exact (C2_vmap_axis_size_consistency (τ := Unit)
      [⟨[4], .float32, List.replicate 4 1⟩] [none] [] (by decide)).2 rfl
      (fun _ _ a => a) ()

/-- `isinstance(x, (tuple, list))` on a container. -/
def isTupleOrList {α : Type} : PyTree α → Bool
  | .tup _ => true
  | .lst _ => true
  | .leaf _ => false

/-- The per-leaf primal/tangent loop of api.py `_jvp`
(`for p, t in safe_zip(ps_flat, ts_flat)`): the tangent dtype must equal the
primal dtype's tangent dtype (TypeError naming both dtypes — an int/bool
primal admits only a float0 tangent), then the shapes must agree (ValueError
naming both shapes); the first violation raises. -/
def jvpLeafChecks : List JaxArray → List JaxArray → Except JaxError Unit
  | p :: ps, t :: ts =>
    if primal_dtype_to_tangent_dtype p.dtype ≠ t.dtype then
      .error (.tangentDtypeMismatch p.dtype t.dtype)
    else if p.shape ≠ t.shape then
      .error (.tangentShapeMismatch p.shape t.shape)
    else jvpLeafChecks ps ts
  | _, _ => .ok ()

/-- api.py `_jvp`, with the user function as an opaque `f : τ` and the
forward engine (`ad.jvp`, external to the sources) as a parameter: the
tuple/list TypeError, the tree-structure TypeError, the per-leaf
dtype/shape checks, then the dispatch into the forward engine on the flat
leaves. -/
def _jvp {τ σ : Type} (adEngine : τ → List JaxArray → List JaxArray → σ)
    (f : τ) (primals tangents : PyTree JaxArray) : Except JaxError σ :=
  if ¬(isTupleOrList primals) ∨ ¬(isTupleOrList tangents) then
    .error .jvpNotTupleOrList
  else
    let ps_flat := treeLeaves primals
    let tree_def := treeDefOf primals
    let ts_flat := treeLeaves tangents
    let tree_def_2 := treeDefOf tangents
    if tree_def ≠ tree_def_2 then .error (.treeMismatch tree_def tree_def_2)
    else do
      jvpLeafChecks ps_flat ts_flat
      return adEngine f ps_flat ts_flat

/-- api.py `jvp`: `_check_callable`, then `_jvp`. -/
def jvp {τ σ : Type} (adEngine : τ → List JaxArray → List JaxArray → σ)
    (fun_ : FunArg τ) (primals tangents : PyTree JaxArray) : Except JaxError σ := do
  let f ← _check_callable fun_
  _jvp adEngine f primals tangents

theorem jvpLeafChecks_ok_iff : ∀ (ps ts : List JaxArray),
    jvpLeafChecks ps ts = .ok () ↔
      ∀ q ∈ ps.zip ts,
        primal_dtype_to_tangent_dtype q.1.dtype = q.2.dtype ∧
        q.1.shape = q.2.shape := by
  intro ps
  induction ps with
  | nil =>
    intro ts
    constructor
    · intro _ q hq; simp at hq
    · intro _; rfl
  | cons p ps ih =>
    intro ts
    cases ts with
    | nil =>
      constructor
      · intro _ q hq; simp at hq
      · intro _; rfl
    | cons t ts =>
      by_cases h1 : primal_dtype_to_tangent_dtype p.dtype = t.dtype
      · by_cases h2 : p.shape = t.shape
        · simp [jvpLeafChecks, h1, h2, ih ts]
        · simp [jvpLeafChecks, h1, h2]
      · simp [jvpLeafChecks, h1]

/-- C6: `_jvp` validates before any differentiation (the errors do not
depend on the forward engine): non-tuple/list primals or tangents raise a
TypeError; differing tree structures raise a TypeError naming both
structures; per leaf, a tangent dtype that is not the primal dtype's tangent
dtype raises a TypeError naming both dtypes (so an integer primal admits
only an explicit float0 tangent), and a tangent shape differing from the
primal's raises a ValueError naming both shapes; when every check passes the
forward engine is entered on the flat leaf lists. -/
theorem C6_jvp_validation {τ σ : Type}
    (adEngine : τ → List JaxArray → List JaxArray → σ) (f : τ)
    (primals tangents : PyTree JaxArray) :
    (¬(isTupleOrList primals = true ∧ isTupleOrList tangents = true) →
      _jvp adEngine f primals tangents = .error .jvpNotTupleOrList) ∧
    (isTupleOrList primals = true → isTupleOrList tangents = true →
      treeDefOf primals ≠ treeDefOf tangents →
      _jvp adEngine f primals tangents
        = .error (.treeMismatch (treeDefOf primals) (treeDefOf tangents))) ∧
    (isTupleOrList primals = true → isTupleOrList tangents = true →
      treeDefOf primals = treeDefOf tangents →
      _jvp adEngine f primals tangents
        = (jvpLeafChecks (treeLeaves primals) (treeLeaves tangents)).bind
            (fun _ => .ok (adEngine f (treeLeaves primals) (treeLeaves tangents)))) ∧
    (∀ ps ts : List JaxArray,
      jvpLeafChecks ps ts = .ok () ↔
        ∀ q ∈ ps.zip ts,
          primal_dtype_to_tangent_dtype q.1.dtype = q.2.dtype ∧
          q.1.shape = q.2.shape) := by
  refine ⟨?_, ?_, ?_, jvpLeafChecks_ok_iff⟩
  · intro h
    unfold _jvp
    have hp : ¬(isTupleOrList primals) ∨ ¬(isTupleOrList tangents) := by
      by_cases h1 : isTupleOrList primals = true
      · right
        intro h2
        exact h ⟨h1, h2⟩
      · left
        simp [h1]
    exact if_pos hp
  · intro h1 h2 hne
    unfold _jvp
    simp [h1, h2, hne]
  · intro h1 h2 he
    unfold _jvp
    simp [h1, h2, he]
    rfl

theorem C6_jvp_validation_witness :
    _jvp (fun (_ : Unit) ps ts => (ps, ts)) () (.leaf ⟨[], .float32, [1]⟩)
        (.tup [.leaf ⟨[], .float32, [1]⟩])
      = .error .jvpNotTupleOrList ∧
    _jvp (fun (_ : Unit) ps ts => (ps, ts)) () (.tup [.leaf ⟨[], .float32, [1]⟩])
        (.lst [.leaf ⟨[], .float32, [1]⟩])
      = .error (.treeMismatch (.tup [.leaf ()]) (.lst [.leaf ()])) ∧
    _jvp (fun (_ : Unit) ps ts => (ps, ts)) () (.tup [.leaf ⟨[2], .int32, [1, 2]⟩])
        (.tup [.leaf ⟨[2], .int32, [1, 2]⟩])
      = .error (.tangentDtypeMismatch .int32 .int32) ∧
    _jvp (fun (_ : Unit) ps ts => (ps, ts)) () (.tup [.leaf ⟨[2], .float32, [1, 2]⟩])
        (.tup [.leaf ⟨[3], .float32, [1, 2, 3]⟩])
      = .error (.tangentShapeMismatch [2] [3]) ∧
    _jvp (fun (_ : Unit) ps ts => (ps, ts)) () (.tup [.leaf ⟨[2], .int32, [1, 2]⟩])
        (.tup [.leaf ⟨[2], .float0, [0, 0]⟩])
      = .ok ([⟨[2], .int32, [1, 2]⟩], [⟨[2], .float0, [0, 0]⟩]) := by
  refine ⟨?_, ?_, ?_, ?_, ?_⟩
  · exact (C6_jvp_validation _ () (.leaf ⟨[], .float32, [1]⟩)
      (.tup [.leaf ⟨[], .float32, [1]⟩])).1 (by decide)
  · exact (C6_jvp_validation _ () (.tup [.leaf ⟨[], .float32, [1]⟩])
      (.lst [.leaf ⟨[], .float32, [1]⟩])).2.1 (by decide) (by decide) (by decide)
  · have h := (C6_jvp_validation (fun (_ : Unit) ps ts => (ps, ts)) ()
      (.tup [.leaf ⟨[2], .int32, [1, 2]⟩])
      (.tup [.leaf ⟨[2], .int32, [1, 2]⟩])).2.2.1 (by decide) (by decide) (by decide)
    rw [h]; decide
  · have h := (C6_jvp_validation (fun (_ : Unit) ps ts => (ps, ts)) ()
      (.tup [.leaf ⟨[2], .float32, [1, 2]⟩])
      (.tup [.leaf ⟨[3], .float32, [1, 2, 3]⟩])).2.2.1 (by decide) (by decide) (by decide)
    rw [h]; decide
  · have h := (C6_jvp_validation (fun (_ : Unit) ps ts => (ps, ts)) ()
      (.tup [.leaf ⟨[2], .int32, [1, 2]⟩])
      (.tup [.leaf ⟨[2], .float0, [0, 0]⟩])).2.2.1 (by decide) (by decide) (by decide)
    rw [h]; decide

/-- The per-leaf cotangent-dtype loop of api.py `_vjp_pullback_wrapper`
(`for arg, ct_dtype in safe_zip(args, cotangent_dtypes)`): the cotangent
leaf's dtype, mapped to its tangent dtype, must equal the expected cotangent
dtype; `safe_zip` asserts equal lengths. The error carries the expected
cotangent dtype and the computed tangent dtype interpolated into the
TypeError message. -/
def vjpCotangentDtypeChecks : List JaxArray → List DType → Except JaxError Unit
  | [], [] => .ok ()
  | arg :: args, d :: ds =>
    if primal_dtype_to_tangent_dtype arg.dtype ≠ d then
      .error (.cotangentDtypeMismatch d (primal_dtype_to_tangent_dtype arg.dtype))
    else vjpCotangentDtypeChecks args ds
  | [], _ :: _ => .error .lengthMismatch
  | _ :: _, [] => .error .lengthMismatch

/-- api.py `_vjp_pullback_wrapper`: flatten the cotangent argument; a
TypeError if its structure token differs from the primal output's expected
token; the per-leaf cotangent-dtype checks; then the backward-pass function
runs on the flat cotangent leaves and its result is rebuilt with the second
tree of `io_tree` (the primal input structure). -/
def _vjp_pullback_wrapper (cotangent_dtypes : List DType)
    (io_tree : TreeDef × TreeDef) (fun_ : List JaxArray → List JaxArray)
    (py_args : PyTree JaxArray) : Except JaxError (PyTree JaxArray) :=
  let in_tree_expected := io_tree.1
  let out_tree := io_tree.2
  let args := treeLeaves py_args
  let in_tree := treeDefOf py_args
  if in_tree ≠ in_tree_expected then .error (.treeMismatch in_tree in_tree_expected)
  else do
    vjpCotangentDtypeChecks args cotangent_dtypes
    match tree_unflatten out_tree (fun_ args) with
    | some t => .ok t
    | none => .error .structureMismatch

/-- api.py `_vjp`, lines 1969-1976: the expected cotangent dtypes are the
tangent dtypes of the primal output leaves, and the pullback handed to the
caller is `_vjp_pullback_wrapper` over `(out_tree, in_tree)` — the primal
output structure as the expected cotangent tree and the primal input
structure as the rebuild tree — applied to the reverse engine's `out_vjp`
(`ad.vjp` itself is external to the sources). -/
def vjp_py (out_primal : List JaxArray) (out_tree in_tree : TreeDef)
    (out_vjp : List JaxArray → List JaxArray) (ct : PyTree JaxArray) :
    Except JaxError (PyTree JaxArray) :=
  _vjp_pullback_wrapper
    (out_primal.map (fun x => primal_dtype_to_tangent_dtype x.dtype))
    (out_tree, in_tree) out_vjp ct

theorem vjpCotangentDtypeChecks_ok_iff : ∀ (args : List JaxArray) (ds : List DType),
    vjpCotangentDtypeChecks args ds = .ok () ↔
      args.length = ds.length ∧
      ∀ q ∈ args.zip ds, primal_dtype_to_tangent_dtype q.1.dtype = q.2 := by
  intro args
  induction args with
  | nil =>
    intro ds
    cases ds with
    | nil => simp [vjpCotangentDtypeChecks]
    | cons d ds => simp [vjpCotangentDtypeChecks]
  | cons a args ih =>
    intro ds
    cases ds with
    | nil => simp [vjpCotangentDtypeChecks]
    | cons d ds =>
      by_cases h1 : primal_dtype_to_tangent_dtype a.dtype = d
      · simp [vjpCotangentDtypeChecks, h1, ih ds]
      · simp [vjpCotangentDtypeChecks, h1]

/-- C5 counterexample to the claim as stated: a cotangent whose leaf dtype
(int32) differs from the expected tangent dtype (float0) of the
corresponding int32 primal output leaf is not rejected — the pullback runs
the backward pass and returns a cotangent. -/
theorem C5_vjp_pullback_counterexample :
    vjp_py [⟨[], .int32, [3]⟩] (.leaf ()) (.leaf ()) (fun a => a)
        (.leaf ⟨[], .int32, [1]⟩)
      = .ok (.leaf ⟨[], .int32, [1]⟩) ∧
    (⟨[], .int32, [1]⟩ : JaxArray).dtype
      ≠ primal_dtype_to_tangent_dtype (⟨[], .int32, [3]⟩ : JaxArray).dtype := by
  exact ⟨rfl, by decide⟩

/-- C5 (amended): the pullback returned by vjp rejects — with an error
independent of the backward-pass function, so before any backward-pass
work — every cotangent whose tree structure differs from the primal
output's, and every cotangent one of whose leaf dtypes has a tangent dtype
(int/bool mapping to float0) differing from the expected tangent dtype of
the corresponding primal output leaf; when both checks pass it applies the
backward pass to the flat leaves and rebuilds the result with the primal
input structure (so a returned cotangent's structure token is the primal
input tree). -/
theorem C5_vjp_pullback_validation (out_primal : List JaxArray)
    (out_tree in_tree : TreeDef) (out_vjp : List JaxArray → List JaxArray)
    (ct : PyTree JaxArray) :
    (treeDefOf ct ≠ out_tree →
      ∀ g : List JaxArray → List JaxArray,
        vjp_py out_primal out_tree in_tree g ct
          = .error (.treeMismatch (treeDefOf ct) out_tree)) ∧
    (treeDefOf ct = out_tree →
      vjp_py out_primal out_tree in_tree out_vjp ct
        = (vjpCotangentDtypeChecks (treeLeaves ct)
            (out_primal.map (fun x => primal_dtype_to_tangent_dtype x.dtype))).bind
            (fun _ =>
              match tree_unflatten in_tree (out_vjp (treeLeaves ct)) with
              | some t => .ok t
              | none => .error .structureMismatch)) ∧
    (∀ args ds, vjpCotangentDtypeChecks args ds = .ok () ↔
      args.length = ds.length ∧
      ∀ q ∈ args.zip ds, primal_dtype_to_tangent_dtype q.1.dtype = q.2) ∧
    (∀ t, vjp_py out_primal out_tree in_tree out_vjp ct = .ok t →
      treeDefOf t = in_tree) := by
  refine ⟨?_, ?_, vjpCotangentDtypeChecks_ok_iff, ?_⟩
  · intro hne g
    unfold vjp_py _vjp_pullback_wrapper
    simp [hne]
  · intro he
    unfold vjp_py _vjp_pullback_wrapper
    rw [he]
    simp
    rfl
  · intro t h
    unfold vjp_py _vjp_pullback_wrapper at h
    by_cases hs : treeDefOf ct = out_tree
    · rw [hs] at h
      simp at h
      cases hc : vjpCotangentDtypeChecks (treeLeaves ct)
          (out_primal.map (fun x => primal_dtype_to_tangent_dtype x.dtype)) with
      | error e => rw [hc] at h; cases h
      | ok u =>
        rw [hc] at h
        cases hu : tree_unflatten in_tree (out_vjp (treeLeaves ct)) with
        | none => rw [hu] at h; cases h
        | some t2 =>
          rw [hu] at h
          cases h
          exact tree_unflatten_treeDef in_tree (out_vjp (treeLeaves ct)) _ hu
    · simp [hs] at h

theorem C5_vjp_pullback_validation_witness :
    vjp_py [⟨[], .float32, [2]⟩] (.leaf ()) (.tup [.leaf ()]) (fun a => a)
        (.tup [])
      = .error (.treeMismatch (.tup []) (.leaf ())) ∧
    vjp_py [⟨[], .float32, [2]⟩] (.leaf ()) (.tup [.leaf ()]) (fun a => a)
        (.leaf ⟨[], .float32, [5]⟩)
      = .ok (.tup [.leaf ⟨[], .float32, [5]⟩]) ∧
    treeDefOf (PyTree.tup [.leaf (⟨[], .float32, [5]⟩ : JaxArray)])
      = .tup [.leaf ()] := by
  have h2 : vjp_py [⟨[], .float32, [2]⟩] (.leaf ()) (.tup [.leaf ()]) (fun a => a)
      (.leaf ⟨[], .float32, [5]⟩) = .ok (.tup [.leaf ⟨[], .float32, [5]⟩]) := by
    have h := (C5_vjp_pullback_validation [⟨[], .float32, [2]⟩] (.leaf ())
      (.tup [.leaf ()]) (fun a => a) (.leaf ⟨[], .float32, [5]⟩)).2.1 (by decide)
    rw [h]; rfl
  refine ⟨?_, h2, ?_⟩
  · exact (C5_vjp_pullback_validation [⟨[], .float32, [2]⟩] (.leaf ())
      (.tup [.leaf ()]) (fun a => a) (.tup [])).1 (by decide) (fun a => a)
  · exact (C5_vjp_pullback_validation [⟨[], .float32, [2]⟩] (.leaf ())
      (.tup [.leaf ()]) (fun a => a) (.leaf ⟨[], .float32, [5]⟩)).2.2.2
      (.tup [.leaf ⟨[], .float32, [5]⟩]) h2

/-- api.py `f_jitted` (the closure built by `_python_jit`): when
`config.jax_disable_jit` is set the user function is invoked directly on the
concrete arguments and its result returned unchanged; otherwise the
static/donate positional-count ValueError is checked and the call enters the
flatten → `xla.xla_call` → unflatten pipeline. That pipeline
(`argnums_partial_except`, `tree_flatten`, `donation_vector`, `_check_arg`,
`flatten_fun`, `xla.xla_call`, `tree_unflatten`) lives outside the sources
(`api_util`, `tree_util`, `interpreters/xla`) and is the `pipeline`
parameter. -/
def f_jitted {R : Type} (f : List (PyTree JaxArray) → R)
    (static_argnums donate_argnums : List Nat) (device : Option Nat)
    (backend : Option String)
    (pipeline : (List (PyTree JaxArray) → R) → List Nat → List Nat →
      Option Nat → Option String → List (PyTree JaxArray) → Except JaxError R)
    (jax_disable_jit : Bool) (args : List (PyTree JaxArray)) :
    Except JaxError R :=
  if jax_disable_jit then .ok (f args)
  else if (static_argnums ++ donate_argnums).any (fun k => args.length ≤ k) then
    .error (.staticDonateOutOfRange static_argnums donate_argnums args.length)
  else pipeline f static_argnums donate_argnums device backend args

/-- api.py `_python_jit`: wrap-time `_check_callable` (index normalisation
and donate-argnum rebasing are `api_util` helpers outside the sources),
returning the `f_jitted` closure, which reads `config.jax_disable_jit` at
call time. -/
def _python_jit {R : Type}
    (pipeline : (List (PyTree JaxArray) → R) → List Nat → List Nat →
      Option Nat → Option String → List (PyTree JaxArray) → Except JaxError R)
    (fun_ : FunArg (List (PyTree JaxArray) → R))
    (static_argnums donate_argnums : List Nat) (device : Option Nat)
    (backend : Option String) :
    Except JaxError (Bool → List (PyTree JaxArray) → Except JaxError R) :=
  (_check_callable fun_).map
    (fun f => f_jitted f static_argnums donate_argnums device backend pipeline)

/-- api.py `_cpp_jit`: wrap-time `_check_callable`, then the ValueError when
both a device and a backend are specified; the C++ fast-path/cache-miss
machinery (`jax_jit.jit` and `cache_miss`) is external and is the
`cppPipeline` parameter. -/
def _cpp_jit {R : Type}
    (cppPipeline : (List (PyTree JaxArray) → R) → List Nat → List Nat →
      Option Nat → Option String → List (PyTree JaxArray) → Except JaxError R)
    (fun_ : FunArg (List (PyTree JaxArray) → R))
    (static_argnums donate_argnums : List Nat) (device : Option Nat)
    (backend : Option String) :
    Except JaxError (Bool → List (PyTree JaxArray) → Except JaxError R) := do
  let f ← _check_callable fun_
  if device.isSome && backend.isSome then .error .deviceAndBackend
  else
    .ok (fun _ args => cppPipeline f static_argnums donate_argnums device backend args)

/-- api.py `jit`: dispatches on `FLAGS.experimental_cpp_jit` (default True)
between `_cpp_jit` and `_python_jit`. -/
def jit {R : Type} (experimental_cpp_jit : Bool)
    (pipeline cppPipeline : (List (PyTree JaxArray) → R) → List Nat → List Nat →
      Option Nat → Option String → List (PyTree JaxArray) → Except JaxError R)
    (fun_ : FunArg (List (PyTree JaxArray) → R))
    (static_argnums donate_argnums : List Nat) (device : Option Nat)
    (backend : Option String) :
    Except JaxError (Bool → List (PyTree JaxArray) → Except JaxError R) :=
  if experimental_cpp_jit then
    _cpp_jit cppPipeline fun_ static_argnums donate_argnums device backend
  else
    _python_jit pipeline fun_ static_argnums donate_argnums device backend

/-- C8: while disable_jit is active, a call to the (python) jit-wrapped
closure invokes the original user function directly on the concrete
arguments and returns its result unchanged — for every pipeline, so none of
the argument partitioning, flattening, tracing or compilation machinery
contributes, and before even the static/donate positional-count check. -/
theorem C8_disable_jit_calls_fun_directly {R : Type}
    (f : List (PyTree JaxArray) → R) (static_argnums donate_argnums : List Nat)
    (device : Option Nat) (backend : Option String)
    (pipeline : (List (PyTree JaxArray) → R) → List Nat → List Nat →
      Option Nat → Option String → List (PyTree JaxArray) → Except JaxError R)
    (args : List (PyTree JaxArray)) :
    f_jitted f static_argnums donate_argnums device backend pipeline true args
      = .ok (f args) := rfl

/-- C10: under the C++ fast-path jit (the default), specifying both a device
and a backend is a ValueError raised at wrap time: `jit` fails before any
jitted call exists, for every callable, pipeline and argument
configuration. -/
theorem C10_jit_rejects_device_and_backend {R : Type}
    (pipeline cppPipeline : (List (PyTree JaxArray) → R) → List Nat → List Nat →
      Option Nat → Option String → List (PyTree JaxArray) → Except JaxError R)
    (f : List (PyTree JaxArray) → R) (static_argnums donate_argnums : List Nat)
    (d : Nat) (b : String) :
    jit true pipeline cppPipeline (.callable f false) static_argnums
        donate_argnums (some d) (some b)
      = .error .deviceAndBackend := rfl

/-- api.py `jacfwd`: wrap-time `_check_callable`; the returned `jacfun`
checks the input dtype (`_check_input_dtype_jacfwd`, in the sources) and
enters the forward-over-standard-basis machinery (`_jvp`, `vmap`,
`_std_basis`, `_unravel_array_into_pytree`), which is the `engine`
parameter; `argnums` is passed through. -/
def jacfwd {τ A : Type}
    (engine : τ → A → JaxArray → Except JaxError JaxArray)
    (fun_ : FunArg τ) (argnums : A) (holomorphic : Bool) :
    Except JaxError (JaxArray → Except JaxError JaxArray) :=
  (_check_callable fun_).map (fun f => fun x => do
    _check_input_dtype_jacfwd holomorphic x
    engine f argnums x)

/-- api.py `jacrev`: wrap-time `_check_callable`; the returned `jacfun`
checks the input dtype (`_check_input_dtype_jacrev =
_check_input_dtype_revderiv "jacrev"`, in the sources) and enters the
reverse-over-standard-basis machinery (`_vjp`, `vmap`, `tree_transpose`),
which is the `engine` parameter. -/
def jacrev {τ A : Type}
    (engine : τ → A → JaxArray → Except JaxError JaxArray)
    (fun_ : FunArg τ) (argnums : A) (holomorphic allow_int : Bool) :
    Except JaxError (JaxArray → Except JaxError JaxArray) :=
  (_check_callable fun_).map (fun f => fun x => do
    _check_input_dtype_revderiv "jacrev" holomorphic allow_int x
    engine f argnums x)

/-- api.py `hessian`:
`jacfwd(jacrev(fun, argnums, holomorphic), argnums, holomorphic)` — jacrev
with its default `allow_int=False`, whose returned jacobian closure (a
callable, not a generator function) is the function jacfwd differentiates. -/
def hessian {τ A : Type}
    (engineF : (JaxArray → Except JaxError JaxArray) → A → JaxArray →
      Except JaxError JaxArray)
    (engineR : τ → A → JaxArray → Except JaxError JaxArray)
    (fun_ : FunArg τ) (argnums : A) (holomorphic : Bool) :
    Except JaxError (JaxArray → Except JaxError JaxArray) :=
  (jacrev engineR fun_ argnums holomorphic false).bind
    (fun inner => jacfwd engineF (.callable inner false) argnums holomorphic)

/-- The hessian the claim describes, written from its words: the forward-mode
jacobian applied over the reverse-mode jacobian, with the same `argnums` and
`holomorphic` arguments handed to both and no other processing (jacrev's
`allow_int` left at its default False). -/
def hessian_claimed {τ A : Type}
    (engineF : (JaxArray → Except JaxError JaxArray) → A → JaxArray →
      Except JaxError JaxArray)
    (engineR : τ → A → JaxArray → Except JaxError JaxArray)
    (fun_ : FunArg τ) (argnums : A) (holomorphic : Bool) :
    Except JaxError (JaxArray → Except JaxError JaxArray) :=
  (jacrev engineR fun_ argnums holomorphic false).bind
    (fun inner => jacfwd engineF (.callable inner false) argnums holomorphic)

/-- C4: for every function and every argnums/holomorphic setting (and every
choice of forward/reverse jacobian engines), `hessian` is exactly the
composition of the forward-mode jacobian over the reverse-mode jacobian. -/
theorem C4_hessian_is_jacfwd_of_jacrev {τ A : Type}
    (engineF : (JaxArray → Except JaxError JaxArray) → A → JaxArray →
      Except JaxError JaxArray)
    (engineR : τ → A → JaxArray → Except JaxError JaxArray)
    (fun_ : FunArg τ) (argnums : A) (holomorphic : Bool) :
    hessian engineF engineR fun_ argnums holomorphic
      = hessian_claimed engineF engineR fun_ argnums holomorphic := rfl

/-- api.py `pmap`: wrap-time `_check_callable`; the returned `f_pmapped`
computes `_mapped_axis_size` (name "pmap") before entering the parallel
engine (`pxla.xla_pmap`, external, the `parEngine` parameter). -/
def pmap {τ : Type} (parEngine : Nat → τ → List JaxArray → List JaxArray)
    (fun_ : FunArg τ) (in_axes : List (Option Int)) :
    Except JaxError (List JaxArray → Except JaxError (List JaxArray)) :=
  (_check_callable fun_).map (fun f => fun args => do
    let n ← _mapped_axis_size "pmap" args in_axes
    return parEngine n f args)

/-- api.py `linearize`: `_check_callable`, then partial-evaluation tracing
via `ad.linearize` (external, the `engine` parameter). -/
def linearize {τ σ : Type} (engine : τ → List (PyTree JaxArray) → σ)
    (fun_ : FunArg τ) (primals : List (PyTree JaxArray)) : Except JaxError σ :=
  (_check_callable fun_).map (fun f => engine f primals)

/-- api.py `_vjp`: flatten the primals, run the reverse engine (`ad.vjp`,
external — it yields the flat primal outputs, their structure token and the
flat backward-pass function), rebuild the primal output, and pair it with
the `vjp_py` pullback over `(out_tree, in_tree)`. -/
def _vjp {τ : Type}
    (revEngine : τ → List JaxArray →
      List JaxArray × TreeDef × (List JaxArray → List JaxArray))
    (f : τ) (primals : PyTree JaxArray) :
    Option (PyTree JaxArray) × (PyTree JaxArray → Except JaxError (PyTree JaxArray)) :=
  let primals_flat := treeLeaves primals
  let in_tree := treeDefOf primals
  let r := revEngine f primals_flat
  (tree_unflatten r.2.1 r.1, vjp_py r.1 r.2.1 in_tree r.2.2)

/-- api.py `vjp`: `_check_callable`, then `_vjp`. -/
def vjp {τ : Type}
    (revEngine : τ → List JaxArray →
      List JaxArray × TreeDef × (List JaxArray → List JaxArray))
    (fun_ : FunArg τ) (primals : PyTree JaxArray) :
    Except JaxError
      (Option (PyTree JaxArray) × (PyTree JaxArray → Except JaxError (PyTree JaxArray))) :=
  (_check_callable fun_).map (fun f => _vjp revEngine f primals)

/-- api.py `xla_computation`: wrap-time `_check_callable`, then the
`computation_maker` closure (its donation logic is modelled below at the
buffer level; the trace/build machinery is the closure's engine). -/
def xla_computation {τ σ : Type} (traceEngine : τ → σ) (fun_ : FunArg τ) :
    Except JaxError σ :=
  (_check_callable fun_).map traceEngine

/-- api.py `make_jaxpr`: wrap-time `_check_callable`, then the `jaxpr_maker`
closure over the external tracing machinery (`pe.trace_to_jaxpr_dynamic`). -/
def make_jaxpr {τ σ : Type} (traceEngine : τ → σ) (fun_ : FunArg τ)
    (static_argnums : List Nat) : Except JaxError σ :=
  (_check_callable fun_).map traceEngine

/-- api.py `mask`: `_check_callable`, then the `wrapped_fun` closure over the
external masking machinery (`interpreters/masking`). -/
def mask {τ σ : Type} (maskEngine : τ → σ) (fun_ : FunArg τ) :
    Except JaxError σ :=
  (_check_callable fun_).map maskEngine

/-- api.py `shapecheck` (curried: the shape specs come first, the function
last): `_check_callable`, then abstract evaluation against the parsed shape
specs (`masking`, `pe.abstract_eval_fun`, external). -/
def shapecheck {τ σ : Type} (checkEngine : τ → σ)
    (in_shapes out_shape : List (List Nat)) (fun_ : FunArg τ) :
    Except JaxError σ :=
  (_check_callable fun_).map checkEngine

/-- C9: every transformation front-end — jit (both the C++ and the python
path), xla_computation, grad, value_and_grad, jacfwd, jacrev, vmap, pmap,
jvp, vjp, linearize, make_jaxpr, mask and shapecheck — fails with the
not-callable TypeError on a non-callable argument and with the
generator-function TypeError on a generator function, at the moment the
transformation is applied and independently of the function's behaviour,
so before the wrapped function could ever be called. -/
theorem C9_front_ends_reject_noncallables_and_generators :
    (∀ {R : Type} (cpp : Bool)
      (pyP cppP : (List (PyTree JaxArray) → R) → List Nat → List Nat →
        Option Nat → Option String → List (PyTree JaxArray) → Except JaxError R)
      (st dn : List Nat) (dev : Option Nat) (bk : Option String),
      jit cpp pyP cppP .notCallable st dn dev bk = .error .notCallable ∧
      ∀ f, jit cpp pyP cppP (.callable f true) st dn dev bk
        = .error .generatorFunction) ∧
    (∀ {τ σ : Type} (eng : τ → σ),
      xla_computation eng .notCallable = .error .notCallable ∧
      ∀ f, xla_computation eng (.callable f true) = .error .generatorFunction) ∧
    (∀ (ho ai : Bool),
      grad .notCallable ho ai = .error .notCallable ∧
      ∀ p, grad (.callable p true) ho ai = .error .generatorFunction) ∧
    (∀ (ho ai : Bool),
      value_and_grad .notCallable ho ai = .error .notCallable ∧
      ∀ p, value_and_grad (.callable p true) ho ai = .error .generatorFunction) ∧
    (∀ {τ A : Type} (eng : τ → A → JaxArray → Except JaxError JaxArray)
      (an : A) (ho : Bool),
      jacfwd eng .notCallable an ho = .error .notCallable ∧
      ∀ f, jacfwd eng (.callable f true) an ho = .error .generatorFunction) ∧
    (∀ {τ A : Type} (eng : τ → A → JaxArray → Except JaxError JaxArray)
      (an : A) (ho ai : Bool),
      jacrev eng .notCallable an ho ai = .error .notCallable ∧
      ∀ f, jacrev eng (.callable f true) an ho ai = .error .generatorFunction) ∧
    (∀ {τ : Type} (eng : Nat → τ → List JaxArray → List JaxArray)
      (axes : List (Option Int)),
      vmap eng .notCallable axes = .error .notCallable ∧
      ∀ f, vmap eng (.callable f true) axes = .error .generatorFunction) ∧
    (∀ {τ : Type} (eng : Nat → τ → List JaxArray → List JaxArray)
      (axes : List (Option Int)),
      pmap eng .notCallable axes = .error .notCallable ∧
      ∀ f, pmap eng (.callable f true) axes = .error .generatorFunction) ∧
    (∀ {τ σ : Type} (eng : τ → List JaxArray → List JaxArray → σ)
      (ps ts : PyTree JaxArray),
      jvp eng .notCallable ps ts = .error .notCallable ∧
      ∀ f, jvp eng (.callable f true) ps ts = .error .generatorFunction) ∧
    (∀ {τ : Type}
      (eng : τ → List JaxArray →
        List JaxArray × TreeDef × (List JaxArray → List JaxArray))
      (ps : PyTree JaxArray),
      vjp eng .notCallable ps = .error .notCallable ∧
      ∀ f, vjp eng (.callable f true) ps = .error .generatorFunction) ∧
    (∀ {τ σ : Type} (eng : τ → List (PyTree JaxArray) → σ)
      (ps : List (PyTree JaxArray)),
      linearize eng .notCallable ps = .error .notCallable ∧
      ∀ f, linearize eng (.callable f true) ps = .error .generatorFunction) ∧
    (∀ {τ σ : Type} (eng : τ → σ) (st : List Nat),
      make_jaxpr eng .notCallable st = .error .notCallable ∧
      ∀ f, make_jaxpr eng (.callable f true) st = .error .generatorFunction) ∧
    (∀ {τ σ : Type} (eng : τ → σ),
      mask eng .notCallable = .error .notCallable ∧
      ∀ f, mask eng (.callable f true) = .error .generatorFunction) ∧
    (∀ {τ σ : Type} (eng : τ → σ) (i o : List (List Nat)),
      shapecheck eng i o .notCallable = .error .notCallable ∧
      ∀ f, shapecheck eng i o (.callable f true) = .error .generatorFunction) := by
  refine ⟨?_, ?_, ?_, ?_, ?_, ?_, ?_, ?_, ?_, ?_, ?_, ?_, ?_, ?_⟩
  · intro R cpp pyP cppP st dn dev bk
    cases cpp
    · exact ⟨rfl, fun f => rfl⟩
    · exact ⟨rfl, fun f => rfl⟩
  · intro τ σ eng; exact ⟨rfl, fun f => rfl⟩
  · intro ho ai; exact ⟨rfl, fun p => rfl⟩
  · intro ho ai; exact ⟨rfl, fun p => rfl⟩
  · intro τ A eng an ho; exact ⟨rfl, fun f => rfl⟩
  · intro τ A eng an ho ai; exact ⟨rfl, fun f => rfl⟩
  · intro τ eng axes; exact ⟨rfl, fun f => rfl⟩
  · intro τ eng axes; exact ⟨rfl, fun f => rfl⟩
  · intro τ σ eng ps ts; exact ⟨rfl, fun f => rfl⟩
  · intro τ eng ps; exact ⟨rfl, fun f => rfl⟩
  · intro τ σ eng ps; exact ⟨rfl, fun f => rfl⟩
  · intro τ σ eng st; exact ⟨rfl, fun f => rfl⟩
  · intro τ σ eng; exact ⟨rfl, fun f => rfl⟩
  · intro τ σ eng i o; exact ⟨rfl, fun f => rfl⟩

/-- An argument buffer leaf; `id` models Python object identity, so two
entries with equal `id` are the same leaf object passed twice. -/
structure Buffer where
  id : Nat
deriving DecidableEq, Repr

/-- Modelled from the spec (4.2): `api_util.donation_vector` is outside the
sources; the flattened donation vector marks every leaf of each donated
argument True and all other leaves False. With each positional argument a
single buffer leaf, entry `i` records whether position `i` is donated. -/
def donation_vector (donate_argnums : List Nat) (n : Nat) : List Bool :=
  (List.range n).map (fun i => decide (i ∈ donate_argnums))

/-- Modelled from the spec (5): `xla.set_up_aliases` is outside the sources;
it sets up input/output aliasing for donated buffers and returns the
donation flags that could not be honored. Per the spec, a requested donation
cannot be honored when the buffer "was still referenced elsewhere at compile
time" — here, when the same buffer also appears as another argument of the
call. -/
def set_up_aliases (args : List Buffer) (donated : List Bool) : List Bool :=
  (List.range args.length).map (fun i =>
    donated.getD i false &&
      (List.range args.length).any
        (fun j => j != i && (args.getD j ⟨0⟩ == args.getD i ⟨0⟩)))

/-- The warning payload of api.py `computation_maker` (lines 758-763): if any
donation was requested, `set_up_aliases` runs and the donations still
flagged afterwards are reported in the "Some donated buffers were not
usable" warning. The list holds the indices of the warned arguments. -/
def computation_maker_warnings (donate_argnums : List Nat) (args : List Buffer) :
    List Nat :=
  let donated := donation_vector donate_argnums args.length
  let donated2 := if donated.any id then set_up_aliases args donated else donated
  (List.range args.length).filter (fun i => donated2.getD i false)

/-- api.py `computation_maker` (the closure built by `xla_computation`),
donation behaviour: after the static/donate positional-count ValueError, the
call always builds the computation; donations that could not be honored only
produce a warning naming them, never an error. The trace/build machinery is
the `build` parameter; the result is the built computation together with the
warning list. -/
def computation_maker {C : Type} (build : List Buffer → C)
    (static_argnums donate_argnums : List Nat) (args : List Buffer) :
    Except JaxError (C × List Nat) :=
  if (static_argnums ++ donate_argnums).any (fun k => args.length ≤ k) then
    .error (.staticDonateOutOfRange static_argnums donate_argnums args.length)
  else .ok (build args, computation_maker_warnings donate_argnums args)

theorem getD_range_map {β : Type} (f : Nat → β) (n i : Nat) (d : β) (h : i < n) :
    ((List.range n).map f).getD i d = f i := by
  rw [List.getD_eq_getElem?_getD, List.getElem?_map, List.getElem?_range h]
  rfl

theorem donation_vector_getD (donate_argnums : List Nat) (n i : Nat) (h : i < n) :
    (donation_vector donate_argnums n).getD i false = decide (i ∈ donate_argnums) := by
  unfold donation_vector
  exact getD_range_map _ n i false h

theorem set_up_aliases_getD (args : List Buffer) (donated : List Bool) (i : Nat)
    (h : i < args.length) :
    (set_up_aliases args donated).getD i false
      = (donated.getD i false &&
          (List.range args.length).any
            (fun j => j != i && (args.getD j ⟨0⟩ == args.getD i ⟨0⟩))) := by
  unfold set_up_aliases
  exact getD_range_map _ args.length i false h

/-- C3 counterexample to the claim as stated: donating argument 0 and passing
the same buffer object again as the non-donated argument 1 of the same call
is not rejected — the call succeeds, returning the built computation and a
warning naming the unusable donated argument. -/
theorem C3_duplicate_donation_counterexample :
    computation_maker (fun bs => bs.length) [] [0] [⟨7⟩, ⟨7⟩] = .ok (2, [0]) := by
  decide

/-- C3 (amended): a donated argument leaf that is also passed as another
argument of the same call is not rejected before dispatch; whenever the
static/donate indices are within the positional-argument count, the call
succeeds for every trace/build engine, and the warning list names exactly
the donated in-range arguments whose buffer is also referenced by another
argument — a warning, not a usage error. -/
theorem C3_duplicate_donation_warns {C : Type} (build : List Buffer → C)
    (static_argnums donate_argnums : List Nat) (args : List Buffer)
    (h : ∀ k ∈ static_argnums ++ donate_argnums, k < args.length) :
    computation_maker build static_argnums donate_argnums args
        = .ok (build args, computation_maker_warnings donate_argnums args) ∧
    ∀ i, i ∈ computation_maker_warnings donate_argnums args ↔
      (i ∈ donate_argnums ∧ i < args.length ∧
        ∃ j, j < args.length ∧ j ≠ i ∧ args.getD j ⟨0⟩ = args.getD i ⟨0⟩) := by
  constructor
  · have hc : ((static_argnums ++ donate_argnums).any
        (fun k => args.length ≤ k)) = false := by
      rw [List.any_eq_false]
      intro k hk
      simp [Nat.not_le.mpr (h k hk)]
    unfold computation_maker
    rw [hc]
    simp
  · intro i
    unfold computation_maker_warnings
    rw [List.mem_filter, List.mem_range]
    by_cases hany : (donation_vector donate_argnums args.length).any id = true
    · rw [if_pos hany]
      constructor
      · intro ⟨hi, hd⟩
        rw [set_up_aliases_getD args _ i hi] at hd
        rw [donation_vector_getD donate_argnums args.length i hi] at hd
        simp only [Bool.and_eq_true, decide_eq_true_eq, List.any_eq_true,
          List.mem_range, bne_iff_ne, beq_iff_eq] at hd
        obtain ⟨hdon, j, hj, hne, he⟩ := hd
        exact ⟨hdon, hi, j, hj, hne, he⟩
      · intro ⟨hdon, hi, j, hj, hne, he⟩
        refine ⟨hi, ?_⟩
        rw [set_up_aliases_getD args _ i hi,
            donation_vector_getD donate_argnums args.length i hi]
        simp only [Bool.and_eq_true, decide_eq_true_eq, List.any_eq_true,
          List.mem_range, bne_iff_ne, beq_iff_eq]
        exact ⟨hdon, j, hj, hne, he⟩
    · rw [if_neg hany]
      have hforall : ∀ b ∈ donation_vector donate_argnums args.length, b = false := by
        rw [List.any_eq_true] at hany
        intro b hb
        cases b
        · rfl
        · exact absurd ⟨true, hb, rfl⟩ hany
      constructor
      · intro ⟨hi, hd⟩
        exfalso
        rw [donation_vector_getD donate_argnums args.length i hi] at hd
        have : (decide (i ∈ donate_argnums)) ∈
            donation_vector donate_argnums args.length := by
          unfold donation_vector
          rw [List.mem_map]
          exact ⟨i, List.mem_range.mpr hi, rfl⟩
        rw [hforall _ this] at hd
        cases hd
      · intro ⟨hdon, hi, _⟩
        exfalso
        have : (decide (i ∈ donate_argnums)) ∈
            donation_vector donate_argnums args.length := by
          unfold donation_vector
          rw [List.mem_map]
          exact ⟨i, List.mem_range.mpr hi, rfl⟩
        have hf := hforall _ this
        rw [decide_eq_false_iff_not] at hf
        exact hf hdon

theorem C3_duplicate_donation_warns_witness :
    computation_maker (fun bs => bs.length) [] [0] [⟨7⟩, ⟨7⟩]
        = .ok (2, computation_maker_warnings [0] [⟨7⟩, ⟨7⟩]) ∧
    (0 ∈ computation_maker_warnings [0] [⟨7⟩, ⟨7⟩] ↔
      (0 ∈ [0] ∧ 0 < 2 ∧
        ∃ j, j < 2 ∧ j ≠ 0 ∧
          ([⟨7⟩, ⟨7⟩] : List Buffer).getD j ⟨0⟩
            = ([⟨7⟩, ⟨7⟩] : List Buffer).getD 0 ⟨0⟩)) :=
  ⟨(C3_duplicate_donation_warns (fun bs => bs.length) [] [0] [⟨7⟩, ⟨7⟩]
      (by decide)).1,
   (C3_duplicate_donation_warns (fun bs => bs.length) [] [0] [⟨7⟩, ⟨7⟩]
      (by decide)).2 0⟩

end Jax
